import Mathlib

/-!
Verification of the Vocal-IQ voice-analytics engine against its
natural-language specification.  Numeric code is embedded shallowly over
the rationals; fallible operations return `Except`.
-/

namespace VocalIQ

/-- Clamp a rational to the unit interval, as the engine clamps every
score and confidence to [0,1]. -/
def clamp01 (x : ℚ) : ℚ := min 1 (max 0 x)

/-! ## Frontend display helpers (src/frontend/src/components/AnalysisDisplay.tsx) -/

/-- Embedding of `getColorScheme` from AnalysisDisplay.tsx:
if score >= 80 then green, else if score >= 60 then blue,
else if score >= 40 then yellow, else red. -/
def getColorScheme (score : ℚ) : String :=
  if score ≥ 80 then "green"
  else if score ≥ 60 then "blue"
  else if score ≥ 40 then "yellow"
  else "red"

/-- Embedding of `normalizeValue` from AnalysisDisplay.tsx:
Math.min(100, Math.max(0, value * 100)). -/
def normalizeValue (value : ℚ) : ℚ :=
  min 100 (max 0 (value * 100))

/-! ## AI-Voice Detector ensemble (backend engine) -/

/-- Fixed ensemble weight of the heuristic sub-score (0.50). -/
def heuristicWeight : ℚ := 1/2

/-- Fixed ensemble weight of the pattern sub-score (0.30). -/
def patternWeight : ℚ := 3/10

/-- Fixed ensemble weight of the temporal-consistency sub-score (0.20). -/
def temporalWeight : ℚ := 1/5

/-- The single authenticity threshold (0.65). -/
def detectionThreshold : ℚ := 65/100

/-- The high-risk boundary (0.80). -/
def highRiskThreshold : ℚ := 80/100

/-- Modelled from the spec: the backend analyzer
(backend/enhanced_analyzer.py) is not under src/; the classification
rule is taken from the README code excerpt,
is_ai_generated = final_confidence > 0.65. -/
def classifyAI (c : ℚ) : Bool := c > detectionThreshold

/-- Modelled from the spec: the backend analyzer is not under src/; the
risk-tier rule is taken from the README code excerpt:
high if confidence > 0.80, medium elif confidence > 0.65, else low. -/
def riskLevel (c : ℚ) : String :=
  if c > highRiskThreshold then "high"
  else if c > detectionThreshold then "medium"
  else "low"

/-- A detection result: the three sub-scores, the weights actually used,
the combined confidence, the boolean classification and the risk tier. -/
structure DetectionResult where
  heuristic_score : ℚ
  pattern_score : ℚ
  temporal_score : ℚ
  heuristic_weight : ℚ
  pattern_weight : ℚ
  temporal_weight : ℚ
  confidence : ℚ
  is_ai_generated : Bool
  risk_level : String
  deriving Repr, DecidableEq

/-- Modelled from the spec: the backend ensemble combiner is not under
src/.  Combined confidence = 0.50·heuristic + 0.30·pattern +
0.20·temporal, clamped to [0,1].  When the recording is too short for
temporal scoring the temporal term is skipped: its weight is set to 0
(not omitted) and its 0.20 is redistributed proportionally across the
heuristic and pattern weights (0.5/0.8 and 0.3/0.8). -/
def combineScores (h p : ℚ) (t : Option ℚ) : DetectionResult :=
  match t with
  | some ts =>
      let conf := clamp01 (heuristicWeight * h + patternWeight * p + temporalWeight * ts)
      ⟨h, p, ts, heuristicWeight, patternWeight, temporalWeight,
        conf, classifyAI conf, riskLevel conf⟩
  | none =>
      let hw := heuristicWeight / (heuristicWeight + patternWeight)
      let pw := patternWeight / (heuristicWeight + patternWeight)
      let conf := clamp01 (hw * h + pw * p)
      ⟨h, p, 0, hw, pw, 0, conf, classifyAI conf, riskLevel conf⟩

/-! ## Preprocessor (backend engine) -/

/-- The error kinds the engine surfaces to its caller. -/
inductive EngineError where
  | invalidAudio
  | featureExtractionError
  deriving Repr, DecidableEq

/-- Minimum analysis window in seconds (0.5 s). -/
def minAnalysisWindowSec : ℚ := 1/2

/-- Energy floor below which the whole recording counts as silent. -/
def silenceFloor : ℚ := 1/1000

/-- Mean of a list of rationals (0 on the empty list). -/
def listMean (xs : List ℚ) : ℚ := xs.sum / xs.length

/-- Population variance of a list of rationals (0 on the empty list). -/
def listVariance (xs : List ℚ) : ℚ :=
  (xs.map (fun x => (x - listMean xs) ^ 2)).sum / xs.length

/-- DC-offset removal: subtract the sample mean from every sample. -/
def removeDCOffset (samples : List ℚ) : List ℚ :=
  samples.map (fun s => s - listMean samples)

/-- Peak normalization to a target amplitude of 0.9. -/
def peakNormalize (samples : List ℚ) : List ℚ :=
  let peak := samples.foldl (fun a s => max a |s|) 0
  if peak = 0 then samples else samples.map (fun s => s * (9/10) / peak)

/-- Modelled from the spec: the backend preprocessor is not under src/.
It fails with InvalidAudio when the waveform is empty, shorter than the
minimum analysis window (0.5 s at the given sample rate), or entirely
silent (per-sample energy below the floor across the whole duration);
otherwise it returns the cleaned waveform (DC-offset removal then peak
normalization; the filtering steps preserve duration). -/
def preprocess (samples : List ℚ) (sampleRate : ℕ) : Except EngineError (List ℚ) :=
  if samples.isEmpty then .error .invalidAudio
  else if (samples.length : ℚ) < minAnalysisWindowSec * sampleRate then .error .invalidAudio
  else if samples.all (fun s => decide (s * s < silenceFloor)) then .error .invalidAudio
  else .ok (peakNormalize (removeDCOffset samples))

/-! ## Feature Extractor (backend engine) -/

/-- Count of sign changes between successive samples. -/
def zeroCrossings (xs : List ℚ) : ℕ :=
  (xs.zip xs.tail).countP (fun p => decide (p.1 * p.2 < 0))

/-- Successive-sample differences, for frame-to-frame pattern analysis. -/
def successiveDiffs (xs : List ℚ) : List ℚ :=
  (xs.zip xs.tail).map (fun p => p.2 - p.1)

/-- The aggregated statistics the downstream analyzers read. -/
structure FeatureVector where
  energy_mean : ℚ
  energy_variance : ℚ
  zcr : ℚ
  diff_variance : ℚ
  deriving Repr, DecidableEq

/-- Modelled from the spec: the backend feature extractor is not under
src/.  The full extractor computes MFCCs, spectral centroid/rolloff/
contrast/flatness, tonnetz and per-frame statistics; the model retains
the aggregate statistics the downstream scores read: short-time energy
mean and variance, zero-crossing rate, and the variance of
successive-sample differences.  Deterministic and pure. -/
def extractFeatures (w : List ℚ) : FeatureVector :=
  let energies := w.map (fun s => s * s)
  ⟨listMean energies, listVariance energies,
    (zeroCrossings w : ℚ) / w.length, listVariance (successiveDiffs w)⟩

/-- Modelled from the spec: heuristic sub-score — unnaturally low
feature variance (synthetic-like) raises the score; clamped to [0,1]. -/
def heuristicScore (fv : FeatureVector) : ℚ :=
  clamp01 (1 - fv.energy_variance - fv.zcr / 2)

/-- Modelled from the spec: pattern sub-score — abnormally low variance
of successive-frame differences (too smooth) raises the score. -/
def patternScore (fv : FeatureVector) : ℚ :=
  clamp01 (1 - fv.diff_variance)

/-- Mean energies of the full one-second segments of the waveform. -/
def segmentMeans (w : List ℚ) (sampleRate : ℕ) : List ℚ :=
  (List.range (w.length / sampleRate)).map
    (fun i => listMean (((w.drop (i * sampleRate)).take sampleRate).map (fun s => s * s)))

/-- Modelled from the spec: temporal-consistency sub-score — requires at
least two full segments, otherwise it is skipped (returns none and the
ensemble redistributes its weight); unnaturally high cross-segment
similarity (low variance of segment statistics) raises the score. -/
def temporalScore (w : List ℚ) (sampleRate : ℕ) : Option ℚ :=
  if w.length / sampleRate < 2 then none
  else some (clamp01 (1 - listVariance (segmentMeans w sampleRate)))

/-! ## Voice Quality Engine (backend engine) -/

/-- The five metric-group scores of an analysis. -/
structure VoiceMetrics where
  pitch_score : ℚ
  rhythm_score : ℚ
  clarity_score : ℚ
  emotion_score : ℚ
  fluency_score : ℚ
  deriving Repr, DecidableEq

/-- Modelled from the spec: the OverallScore is never stored — it is the
unweighted arithmetic mean of the five group scores (20% each),
recomputed from the current group scores on every read. -/
def overallScore (m : VoiceMetrics) : ℚ :=
  (m.pitch_score + m.rhythm_score + m.clarity_score +
    m.emotion_score + m.fluency_score) / 5

/-- Modelled from the spec: the five group analyzers are not under src/;
the model derives each group score as a clamped function of the
extracted statistics. -/
def computeMetrics (fv : FeatureVector) : VoiceMetrics :=
  ⟨clamp01 (1 - fv.diff_variance), clamp01 (1 - fv.energy_variance),
    clamp01 fv.zcr, clamp01 fv.energy_mean, clamp01 (1 - fv.zcr)⟩

/-! ## Language Identifier (backend engine) -/

/-- A character in the Devanagari Unicode block (U+0900 to U+097F). -/
def isDevanagariChar (c : Char) : Bool :=
  decide (0x900 ≤ c.toNat) && decide (c.toNat ≤ 0x97F)

/-- Confidence assigned to an unambiguous native-script detection
(README: 90%+ confidence for native scripts). -/
def nativeScriptConfidence : ℚ := 9/10

/-- The high threshold above which script evidence overrides the
feature-based result (0.85). -/
def nativeScriptThreshold : ℚ := 85/100

/-- A detected language: code, confidence and contributing method. -/
structure LanguageResult where
  code : String
  confidence : ℚ
  method : String
  deriving Repr, DecidableEq

/-- Modelled from the spec: transcription-based script detection is not
under src/.  When every character of a non-empty transcript falls in a
native-script Unicode range the corresponding language is returned with
the native-script confidence (Devanagari shown; the other supported
ranges are analogous); otherwise no script-based result. -/
def detectScript (t : String) : Option (String × ℚ) :=
  if t.length ≠ 0 && t.toList.all isDevanagariChar then
    some ("hi", nativeScriptConfidence)
  else none

/-- Modelled from the spec: the merge policy is not under src/.  If both
methods agree the confidence is boosted to at least the higher of the
two (min 1 of the higher plus 0.05) and the method is merged; if they
disagree the transcription-based result wins exactly when its script
confidence exceeds the high threshold; otherwise, and when no
transcript or no script evidence is available, the feature-based result
is returned alone. -/
def identifyLanguage (featureCode : String) (featureConf : ℚ)
    (transcript : Option String) : LanguageResult :=
  match transcript with
  | none => ⟨featureCode, featureConf, "feature"⟩
  | some t =>
      match detectScript t with
      | none => ⟨featureCode, featureConf, "feature"⟩
      | some (code, sconf) =>
          if code = featureCode then
            ⟨code, min 1 (max featureConf sconf + 1/20), "merged"⟩
          else if sconf > nativeScriptThreshold then
            ⟨code, sconf, "transcription"⟩
          else
            ⟨featureCode, featureConf, "feature"⟩

/-- Modelled from the spec: the feature-based primary language method is
a rule set over the spectral statistics. -/
def featureLanguage (fv : FeatureVector) : String × ℚ :=
  if fv.zcr > 1/10 then ("en", 7/10) else ("hi", 3/5)

/-! ## Pipeline (backend engine) -/

/-- The terminal aggregate of one analysis call. -/
structure AnalysisRecord where
  duration : ℚ
  detection : DetectionResult
  metrics : VoiceMetrics
  language : LanguageResult
  deriving Repr, DecidableEq

/-- Modelled from the spec: the full backend pipeline is not under src/.
Preprocessor, then Feature Extractor, then the three analyzers over the
shared feature vector; a pure function of the waveform, sample rate and
optional transcript, with no source of randomness. -/
def analyze (samples : List ℚ) (sampleRate : ℕ)
    (transcript : Option String) : Except EngineError AnalysisRecord :=
  match preprocess samples sampleRate with
  | .error e => .error e
  | .ok w =>
      let fv := extractFeatures w
      let det := combineScores (heuristicScore fv) (patternScore fv)
        (temporalScore w sampleRate)
      let vm := computeMetrics fv
      let fl := featureLanguage fv
      ⟨(samples.length : ℚ) / sampleRate, det, vm,
        identifyLanguage fl.1 fl.2 transcript⟩ |> .ok

/-! ## Frontend recorder (src/frontend/src/components/MetricInfoButton.tsx) -/

/-- The recorder constant MAX_DURATION_SEC = 900 (15 minutes) from
MetricInfoButton.tsx line 788. -/
def MAX_DURATION_SEC : ℕ := 900

/-- The recorder's observable state: whether a recording is active and
the elapsed recordingTime in seconds. -/
structure RecorderState where
  isRecording : Bool
  recordingTime : ℕ
  deriving Repr, DecidableEq

/-- Embedding of the recorder's one-second timer from
MetricInfoButton.tsx: setInterval runs setRecordingTime(prev => prev+1)
while the recording is active; the tick performs no duration check and
never stops the recording. -/
def timerTick (s : RecorderState) : RecorderState :=
  if s.isRecording then { s with recordingTime := s.recordingTime + 1 } else s

/-- Embedding of startRecording: a fresh recording starts active with
recordingTime = 0. -/
def startState : RecorderState := ⟨true, 0⟩

/-- Embedding of the progress-bar value (recordingTime /
MAX_DURATION_SEC) * 100 from MetricInfoButton.tsx line 1207 — the only
expression that reads MAX_DURATION_SEC. -/
def progressValue (s : RecorderState) : ℚ :=
  ((s.recordingTime : ℚ) / MAX_DURATION_SEC) * 100

end VocalIQ

namespace VocalIQ

/-- The clamped value always lies in the unit interval. -/
theorem clamp01_mem (x : ℚ) : 0 ≤ clamp01 x ∧ clamp01 x ≤ 1 :=
  ⟨le_min (by norm_num) (le_max_left 0 x), min_le_left 1 _⟩

/-- C9: the display helper normalizeValue returns min(100, max(0, 100·v)),
so its result always lies in [0,100]: out-of-range metric scores are
clamped rather than rendered as out-of-range percentages. -/
theorem normalizeValue_spec (v : ℚ) :
    normalizeValue v = min 100 (max 0 (100 * v)) ∧
    0 ≤ normalizeValue v ∧ normalizeValue v ≤ 100 := by
  unfold normalizeValue
  exact ⟨by rw [mul_comm], le_min (by norm_num) (le_max_left 0 _), min_le_left _ _⟩

/-- C10: getColorScheme assigns exactly one color to every score:
green iff score ≥ 80, blue iff 60 ≤ score < 80, yellow iff
40 ≤ score < 60, red iff score < 40. -/
theorem getColorScheme_spec (score : ℚ) :
    (getColorScheme score = "green" ↔ score ≥ 80) ∧
    (getColorScheme score = "blue" ↔ 60 ≤ score ∧ score < 80) ∧
    (getColorScheme score = "yellow" ↔ 40 ≤ score ∧ score < 60) ∧
    (getColorScheme score = "red" ↔ score < 40) := by
  unfold getColorScheme
  split_ifs with h80 h60 h40
  · exact ⟨⟨fun _ => h80, fun _ => rfl⟩,
      ⟨fun h => absurd h (by decide), fun hc => absurd h80 (not_le.mpr hc.2)⟩,
      ⟨fun h => absurd h (by decide),
        fun hc => absurd h80 (not_le.mpr (hc.2.trans_le (by norm_num)))⟩,
      ⟨fun h => absurd h (by decide),
        fun hlt => absurd h80 (not_le.mpr (hlt.trans_le (by norm_num)))⟩⟩
  · exact ⟨⟨fun h => absurd h (by decide), fun hge => absurd hge h80⟩,
      ⟨fun _ => ⟨h60, lt_of_not_le h80⟩, fun _ => rfl⟩,
      ⟨fun h => absurd h (by decide), fun hc => absurd h60 (not_le.mpr hc.2)⟩,
      ⟨fun h => absurd h (by decide),
        fun hlt => absurd h60 (not_le.mpr (hlt.trans_le (by norm_num)))⟩⟩
  · exact ⟨⟨fun h => absurd h (by decide), fun hge => absurd hge h80⟩,
      ⟨fun h => absurd h (by decide), fun hc => absurd hc.1 h60⟩,
      ⟨fun _ => ⟨h40, lt_of_not_le h60⟩, fun _ => rfl⟩,
      ⟨fun h => absurd h (by decide), fun hlt => absurd h40 (not_le.mpr hlt)⟩⟩
  · exact ⟨⟨fun h => absurd h (by decide), fun hge => absurd hge h80⟩,
      ⟨fun h => absurd h (by decide), fun hc => absurd hc.1 h60⟩,
      ⟨fun h => absurd h (by decide), fun hc => absurd hc.1 h40⟩,
      ⟨fun _ => lt_of_not_le h40, fun _ => rfl⟩⟩

/-- The boolean classification agrees with the threshold comparison. -/
theorem classifyAI_iff (c : ℚ) : classifyAI c = true ↔ c > detectionThreshold := by
  simp [classifyAI]

/-- The risk tier follows the stated strict inequalities at every
confidence value, the boundaries 0.65 and 0.80 included. -/
theorem riskLevel_iff (c : ℚ) :
    (riskLevel c = "high" ↔ c > 80/100) ∧
    (riskLevel c = "medium" ↔ 65/100 < c ∧ c ≤ 80/100) ∧
    (riskLevel c = "low" ↔ c ≤ 65/100) := by
  unfold riskLevel detectionThreshold highRiskThreshold
  split_ifs with h80 h65
  · exact ⟨⟨fun _ => h80, fun _ => rfl⟩,
      ⟨fun h => absurd h (by decide), fun hc => absurd h80 (not_lt.mpr hc.2)⟩,
      ⟨fun h => absurd h (by decide),
        fun hc => absurd (h80.trans_le hc) (by norm_num)⟩⟩
  · exact ⟨⟨fun h => absurd h (by decide), fun hc => absurd hc h80⟩,
      ⟨fun _ => ⟨h65, not_lt.mp h80⟩, fun _ => rfl⟩,
      ⟨fun h => absurd h (by decide), fun hc => absurd h65 (not_lt.mpr hc)⟩⟩
  · exact ⟨⟨fun h => absurd h (by decide), fun hc => absurd hc h80⟩,
      ⟨fun h => absurd h (by decide), fun hc => absurd hc.1 h65⟩,
      ⟨fun _ => not_lt.mp h65, fun _ => rfl⟩⟩

/-- C1: for every detection, the combined confidence lies in [0,1] and
equals the weighted sum 0.50·heuristic + 0.30·pattern + 0.20·temporal
clamped to [0,1]; when the temporal term is skipped the documented
redistribution applies, giving clamp(0.625·heuristic + 0.375·pattern). -/
theorem combined_confidence_spec (h p : ℚ) (t : Option ℚ) :
    (0 ≤ (combineScores h p t).confidence ∧ (combineScores h p t).confidence ≤ 1) ∧
    (∀ ts, t = some ts →
      (combineScores h p t).confidence = clamp01 (1/2 * h + 3/10 * p + 1/5 * ts)) ∧
    (t = none →
      (combineScores h p t).confidence = clamp01 (5/8 * h + 3/8 * p)) := by
  cases t with
  | some ts =>
      refine ⟨clamp01_mem _, fun ts2 hts => ?_, fun hn => nomatch hn⟩
      injection hts with hts
      subst hts
      rfl
  | none =>
      refine ⟨clamp01_mem _, ?_, ?_⟩
      · intro ts2 hts
        exact absurd hts (by simp)
      · intro _
        have h58 : heuristicWeight / (heuristicWeight + patternWeight) = 5/8 := by
          norm_num [heuristicWeight, patternWeight]
        have h38 : patternWeight / (heuristicWeight + patternWeight) = 3/8 := by
          norm_num [heuristicWeight, patternWeight]
        show clamp01 _ = clamp01 _
        rw [h58, h38]

/-- At a concrete pair of sub-scores the combined confidence equals the
clamped weighted sum, in both the full and the temporal-skipped case. -/
theorem combined_confidence_spec_witness :
    (combineScores (3/5) (2/5) (some (1/2))).confidence =
      clamp01 (1/2 * (3/5) + 3/10 * (2/5) + 1/5 * (1/2)) ∧
    (combineScores (3/5) (2/5) none).confidence =
      clamp01 (5/8 * (3/5) + 3/8 * (2/5)) :=
  ⟨(combined_confidence_spec (3/5) (2/5) (some (1/2))).2.1 (1/2) rfl,
    (combined_confidence_spec (3/5) (2/5) none).2.2 rfl⟩

/-- C2: every detection result classifies ai_generated = (confidence >
0.65), and its risk tier is high iff confidence > 0.80, medium iff
0.65 < confidence ≤ 0.80, low iff confidence ≤ 0.65, the boundary
values decided deterministically by these inequalities. -/
theorem detection_classification_spec (h p : ℚ) (t : Option ℚ) :
    ((combineScores h p t).is_ai_generated = true ↔
      (combineScores h p t).confidence > 65/100) ∧
    ((combineScores h p t).risk_level = "high" ↔
      (combineScores h p t).confidence > 80/100) ∧
    ((combineScores h p t).risk_level = "medium" ↔
      65/100 < (combineScores h p t).confidence ∧
      (combineScores h p t).confidence ≤ 80/100) ∧
    ((combineScores h p t).risk_level = "low" ↔
      (combineScores h p t).confidence ≤ 65/100) := by
  have hf : (combineScores h p t).is_ai_generated =
        classifyAI (combineScores h p t).confidence ∧
      (combineScores h p t).risk_level =
        riskLevel (combineScores h p t).confidence := by
    cases t <;> exact ⟨rfl, rfl⟩
  rw [hf.1, hf.2]
  exact ⟨classifyAI_iff _, (riskLevel_iff _).1,
    (riskLevel_iff _).2.1, (riskLevel_iff _).2.2⟩

/-- C3: the three weights recorded in every detection result sum to
exactly 1: either 0.50 + 0.30 + 0.20, or, when the temporal term is
skipped, the temporal weight is 0 (present, not omitted) and its 0.20
is redistributed proportionally over the other two. -/
theorem ensemble_weights_sum_one (h p : ℚ) (t : Option ℚ) :
    (combineScores h p t).heuristic_weight + (combineScores h p t).pattern_weight +
      (combineScores h p t).temporal_weight = 1 ∧
    (∀ ts, t = some ts →
      (combineScores h p t).heuristic_weight = 1/2 ∧
      (combineScores h p t).pattern_weight = 3/10 ∧
      (combineScores h p t).temporal_weight = 1/5) ∧
    (t = none →
      (combineScores h p t).temporal_weight = 0 ∧
      (combineScores h p t).heuristic_weight = 5/8 ∧
      (combineScores h p t).pattern_weight = 3/8) := by
  cases t with
  | some ts =>
      exact ⟨by norm_num [combineScores, heuristicWeight, patternWeight, temporalWeight],
        fun ts2 _ => ⟨rfl, rfl, rfl⟩, fun hn => nomatch hn⟩
  | none =>
      refine ⟨?_, ?_, ?_⟩
      · norm_num [combineScores, heuristicWeight, patternWeight]
      · intro ts2 hts
        exact absurd hts (by simp)
      · intro _
        refine ⟨rfl, ?_, ?_⟩
        · show heuristicWeight / (heuristicWeight + patternWeight) = 5/8
          norm_num [heuristicWeight, patternWeight]
        · show patternWeight / (heuristicWeight + patternWeight) = 3/8
          norm_num [heuristicWeight, patternWeight]

/-- At concrete sub-scores the recorded weights are 0.50/0.30/0.20 with
a temporal term, and 0.625/0.375/0 when it is skipped. -/
theorem ensemble_weights_sum_one_witness :
    ((combineScores (1/2) (1/2) (some (1/2))).heuristic_weight = 1/2 ∧
      (combineScores (1/2) (1/2) (some (1/2))).pattern_weight = 3/10 ∧
      (combineScores (1/2) (1/2) (some (1/2))).temporal_weight = 1/5) ∧
    ((combineScores (1/2) (1/2) none).temporal_weight = 0 ∧
      (combineScores (1/2) (1/2) none).heuristic_weight = 5/8 ∧
      (combineScores (1/2) (1/2) none).pattern_weight = 3/8) :=
  ⟨(ensemble_weights_sum_one (1/2) (1/2) (some (1/2))).2.1 (1/2) rfl,
    (ensemble_weights_sum_one (1/2) (1/2) none).2.2 rfl⟩

/-- C5: a waveform that is empty, shorter than the minimum analysis
window, or entirely silent fails preprocessing with InvalidAudio and
yields no partial result. -/
theorem invalid_audio_spec (samples : List ℚ) (sampleRate : ℕ)
    (hbad : samples = [] ∨
      (samples.length : ℚ) < minAnalysisWindowSec * sampleRate ∨
      ∀ s ∈ samples, s * s < silenceFloor) :
    preprocess samples sampleRate = .error .invalidAudio := by
  unfold preprocess
  split_ifs with h1 h2 h3
  · rfl
  · rfl
  · rfl
  · exfalso
    rcases hbad with h | h | h
    · exact h1 (by simp [h])
    · exact h2 h
    · refine h3 ?_
      rw [List.all_eq_true]
      intro s hs
      exact decide_eq_true (h s hs)

/-- The empty waveform satisfies the invalid-input condition and indeed
fails preprocessing with InvalidAudio. -/
theorem invalid_audio_spec_witness :
    (([] : List ℚ) = [] ∨
      ((List.length ([] : List ℚ) : ℚ) < minAnalysisWindowSec * 16000) ∨
      ∀ s ∈ ([] : List ℚ), s * s < silenceFloor) ∧
    preprocess [] 16000 = .error .invalidAudio :=
  ⟨Or.inl rfl, invalid_audio_spec [] 16000 (Or.inl rfl)⟩

/-- C6: the OverallScore always equals the unweighted arithmetic mean of
the five group scores, and because it is recomputed from the current
group scores, changing any one group score is immediately reflected —
it is never a stale stored value. -/
theorem overall_score_recomputed (m : VoiceMetrics) (x : ℚ) :
    overallScore m = (m.pitch_score + m.rhythm_score + m.clarity_score +
      m.emotion_score + m.fluency_score) / 5 ∧
    overallScore { m with pitch_score := x } =
      (x + m.rhythm_score + m.clarity_score + m.emotion_score + m.fluency_score) / 5 ∧
    overallScore { m with rhythm_score := x } =
      (m.pitch_score + x + m.clarity_score + m.emotion_score + m.fluency_score) / 5 ∧
    overallScore { m with clarity_score := x } =
      (m.pitch_score + m.rhythm_score + x + m.emotion_score + m.fluency_score) / 5 ∧
    overallScore { m with emotion_score := x } =
      (m.pitch_score + m.rhythm_score + m.clarity_score + x + m.fluency_score) / 5 ∧
    overallScore { m with fluency_score := x } =
      (m.pitch_score + m.rhythm_score + m.clarity_score + m.emotion_score + x) / 5 :=
  ⟨rfl, rfl, rfl, rfl, rfl, rfl⟩

/-- C7: a non-empty transcript whose characters all lie in the
Devanagari range yields a language result whose method is
transcription or merged, with confidence at least the 0.85
native-script threshold. -/
theorem devanagari_transcript_spec (featureCode : String) (featureConf : ℚ)
    (t : String) (hne : t.length ≠ 0)
    (hdev : t.toList.all isDevanagariChar = true) :
    ((identifyLanguage featureCode featureConf (some t)).method = "transcription" ∨
      (identifyLanguage featureCode featureConf (some t)).method = "merged") ∧
    85/100 ≤ (identifyLanguage featureCode featureConf (some t)).confidence := by
  have hds : detectScript t = some ("hi", nativeScriptConfidence) := by
    unfold detectScript
    have hd := hdev
    rw [List.all_eq_true] at hd
    have hd2 : ∀ x ∈ t.data, isDevanagariChar x = true := hd
    simp [hne]
    exact hd2
  have h85 : nativeScriptConfidence > nativeScriptThreshold := by
    norm_num [nativeScriptThreshold, nativeScriptConfidence]
  by_cases hc : "hi" = featureCode
  · have hr : identifyLanguage featureCode featureConf (some t) =
        ⟨"hi", min 1 (max featureConf nativeScriptConfidence + 1/20), "merged"⟩ := by
      simp only [identifyLanguage, hds, if_pos hc]
    rw [hr]
    refine ⟨Or.inr rfl, le_min (by norm_num) ?_⟩
    have hmax : nativeScriptConfidence ≤ max featureConf nativeScriptConfidence :=
      le_max_right _ _
    have h910 : (9:ℚ)/10 ≤ max featureConf nativeScriptConfidence := by
      rw [nativeScriptConfidence] at hmax
      exact hmax
    linarith
  · have hr : identifyLanguage featureCode featureConf (some t) =
        ⟨"hi", nativeScriptConfidence, "transcription"⟩ := by
      simp only [identifyLanguage, hds, if_neg hc, if_pos h85]
    rw [hr]
    exact ⟨Or.inl rfl, by norm_num [nativeScriptConfidence]⟩

/-- A concrete all-Devanagari transcript satisfies the hypotheses and
yields a transcription-or-merged result with confidence at least 0.85. -/
theorem devanagari_transcript_spec_witness :
    ("नमस".length ≠ 0 ∧ "नमस".toList.all isDevanagariChar = true) ∧
    (((identifyLanguage "en" (1/2) (some "नमस")).method = "transcription" ∨
      (identifyLanguage "en" (1/2) (some "नमस")).method = "merged") ∧
    85/100 ≤ (identifyLanguage "en" (1/2) (some "नमस")).confidence) :=
  ⟨⟨by decide, by decide⟩,
    devanagari_transcript_spec "en" (1/2) "नमस" (by decide) (by decide)⟩

/-- C4: the analysis pipeline is deterministic: byte-identical inputs
(same samples, sample rate and optional transcript) produce identical
analysis records, and identical waveforms yield identical
FeatureVectors; the embedding is a pure function with no source of
randomness. -/
theorem pipeline_deterministic (w1 w2 : List ℚ) (sr1 sr2 : ℕ)
    (t1 t2 : Option String) (hw : w1 = w2) (hsr : sr1 = sr2) (ht : t1 = t2) :
    analyze w1 sr1 t1 = analyze w2 sr2 t2 ∧
    extractFeatures w1 = extractFeatures w2 := by
  subst hw
  subst hsr
  subst ht
  exact ⟨rfl, rfl⟩

/-- Two runs of the pipeline on a concrete byte-identical input agree. -/
theorem pipeline_deterministic_witness :
    analyze [1, -1, 1] 2 none = analyze [1, -1, 1] 2 none ∧
    extractFeatures [1, -1, 1] = extractFeatures [1, -1, 1] :=
  pipeline_deterministic [1, -1, 1] [1, -1, 1] 2 2 none none rfl rfl rfl

/-- After n ticks of the recorder timer an active recording is still
active with recordingTime = n: no tick consults the duration cap. -/
theorem timerTick_iterate (n : ℕ) : timerTick^[n] startState = ⟨true, n⟩ := by
  induction n with
  | zero => rfl
  | succ k ih => rw [Function.iterate_succ_apply', ih]; rfl

/-- C8: the frontend does not enforce the maximum duration.  After 901
one-second ticks the recording is still active, recordingTime = 901
exceeds MAX_DURATION_SEC = 900, and the progress bar computed from
MAX_DURATION_SEC reads over 100%: nothing rejects or stops a recording
that exceeds the configured maximum before it is sent for analysis. -/
theorem duration_cap_not_enforced :
    (timerTick^[901] startState).isRecording = true ∧
    (timerTick^[901] startState).recordingTime = 901 ∧
    MAX_DURATION_SEC < (timerTick^[901] startState).recordingTime ∧
    100 < progressValue (timerTick^[901] startState) := by
  rw [timerTick_iterate]
  refine ⟨rfl, rfl, by norm_num [MAX_DURATION_SEC], ?_⟩
  norm_num [progressValue, MAX_DURATION_SEC]

end VocalIQ
